import Mathlib

/-
Shallow embedding of src/src/render.rs (crate gl3d): the swapchain /
frame-synchronization subsystem.

Modelling conventions:
- Vulkan handles carry only the data the render.rs logic reads back from
  them.  A recorded command buffer is abstracted to a Nat identifier (the
  value produced by the recording callback); a swapchain image is abstracted
  to a Nat identifier.
- The recording callback (Rust: Fn(&mut AutoCommandBufferBuilder,
  RenderPassBeginInfo) -> Result<()>) is modelled as a function from the
  identity of the framebuffer it is recording into (the begin-info names
  exactly one framebuffer) to either a recording-error payload or the
  resulting command-buffer content.
- Device-side object construction that render.rs only propagates with ?
  and that no claim depends on (image-view / framebuffer-object creation in
  Framebuffer::new, AutoCommandBufferBuilder::primary, builder.build()) is
  modelled as always succeeding; the fallible external calls the control
  flow of render.rs branches on (surface queries, chain creation and
  recreation, acquire_next_image, fence waits, then_signal_fence_and_flush)
  are driver oracle inputs, one record per call site.
- A Rust panic (Vec index out of bounds, Option::unwrap on None,
  the panic! in draw's acquire arm, then_execute().unwrap()) is a distinct
  terminal outcome; then_execute never fails in the model (its error type
  is a command-buffer validity error no claim touches).
-/

namespace GL3D

/-- Error values carried by the anyhow results of render.rs, by source. -/
inductive VkErr where
  /-- device/surface/chain construction rejected -/
  | setup : VkErr
  /-- no supported composite alpha (Swapchain::new) -/
  | config : VkErr
  /-- recording failed: payload is the callback error (anyhow payload) -/
  | recording : Nat → VkErr
  /-- draw: "no command buffer" -/
  | noCommandBuffer : VkErr
  /-- draw: "failed to flush future" -/
  | flush : VkErr
  /-- draw: FlushError propagated from fence.wait()? -/
  | waitFence : VkErr
deriving DecidableEq

/-- Rust struct Fence (render.rs lines 7-10): two independently takeable
closures.  The model keeps only the presence of each closure (Option Unit);
the value a closure returns when run is supplied where draw runs it. -/
structure Fence where
  into_boxed_closure : Option Unit
  wait_closure : Option Unit
deriving DecidableEq

/-- Fence::get_boxed (lines 12-15): take() the into_boxed closure and
unwrap.  none models the unwrap panic when the closure was already taken;
some f is the fence as it remains stored (closure taken) after the call. -/
def Fence.get_boxed (f : Fence) : Option Fence :=
  f.into_boxed_closure.map (fun _ => { f with into_boxed_closure := none })

/-- Fence::wait (lines 16-19): take() the wait closure and unwrap.  none
models the unwrap panic; some f is the fence as it remains stored.  The
Result the closure returns comes from the driver oracle at the call site. -/
def Fence.wait (f : Fence) : Option Fence :=
  f.wait_closure.map (fun _ => { f with wait_closure := none })

/-- The recording callback: from the identity of the framebuffer being
recorded (the begin-info) to a recording error payload or the content of
the finalized command buffer. -/
abbrev Callback := Nat → Except Nat Nat

/-- Rust struct Framebuffer (lines 22-28); the vkenv back-reference and the
framebuffer object carry no data the logic reads, the image is its id. -/
structure Framebuffer where
  image : Nat
  command_buffer : Option Nat
  fence : Option Fence
deriving DecidableEq

/-- Framebuffer::new (lines 33-49), with view/framebuffer-object creation
modelled as succeeding. -/
def Framebuffer.new (image : Nat) : Framebuffer :=
  { image := image, command_buffer := none, fence := none }

/-- Framebuffer::build_command_buffer (lines 50-64): run the callback
against this framebuffer; on success store the built buffer (replacing any
previous one), on error leave the framebuffer untouched and surface the
error. -/
def Framebuffer.build_command_buffer (fb : Framebuffer) (cb : Callback) :
    Framebuffer × Option Nat :=
  match cb fb.image with
  | .error e => (fb, some e)
  | .ok seq => ({ fb with command_buffer := some seq }, none)

/-- Rust struct Framebuffers (lines 72-75). -/
structure Framebuffers where
  list : List Framebuffer
  cb_builder : Option Callback

/-- Framebuffers::new (lines 78-87), creation of each member modelled as
succeeding. -/
def Framebuffers.new (images : List Nat) : Framebuffers :=
  { list := images.map Framebuffer.new, cb_builder := none }

/-- The for-loop shared by Framebuffers::build_command_buffer (lines 92-94)
and Framebuffers::update_command_buffer (lines 100-102): record the targets
in order; the ? on the first failure leaves that target and all later ones
exactly as they were. -/
def recordListGo (cb : Callback) : List Framebuffer → List Framebuffer × Option Nat
  | [] => ([], none)
  | fb :: rest =>
    match Framebuffer.build_command_buffer fb cb with
    | (_, some e) => (fb :: rest, some e)
    | (fb1, none) =>
      let r := recordListGo cb rest
      (fb1 :: r.1, r.2)

/-- Framebuffers::build_command_buffer (lines 88-97): record every target
with the callback, then cache the callback; on a mid-loop failure the
already-recorded targets keep their new buffers but the cache is not
updated (the ? returns before the assignment on line 95). -/
def Framebuffers.build_command_buffer (fbs : Framebuffers) (cb : Callback) :
    Framebuffers × Option Nat :=
  match recordListGo cb fbs.list with
  | (l, some e) => ({ fbs with list := l }, some e)
  | (l, none) => ({ list := l, cb_builder := some cb }, none)

/-- Framebuffers::update_command_buffer (lines 98-105): nothing happens
when no callback is cached; otherwise every target is re-recorded with the
cached callback (the cache itself is not rewritten). -/
def Framebuffers.update_command_buffer (fbs : Framebuffers) :
    Framebuffers × Option Nat :=
  match fbs.cb_builder with
  | none => (fbs, none)
  | some cb =>
    let r := recordListGo cb fbs.list
    ({ fbs with list := r.1 }, r.2)

/-- The SwapchainCreateInfo fields render.rs sets and reuses (lines
137-144, 158-161). -/
structure SwapchainCreateInfo where
  min_image_count : Nat
  image_format : Option Nat
  image_extent : Nat × Nat
deriving DecidableEq

/-- The vulkano swapchain object as read back by render.rs: its create
info (swapchain.create_info(), reused on recreate) and its images. -/
structure VkSwapchain where
  create_info : SwapchainCreateInfo
  images : List Nat
deriving DecidableEq

/-- Surface capabilities consumed by Swapchain::new (lines 129-133):
min_image_count and the list of supported composite-alpha modes (modes as
opaque Nat tags, in the iteration order of into_iter). -/
structure SurfaceCaps where
  min_image_count : Nat
  supported_composite_alpha : List Nat
deriving DecidableEq

/-- The VulkanEnvironment queries Swapchain::new and recreate make
(surface_capabilities, first_surface_format, dimension); they are declared
on VulkanEnvironment but exercised only through render.rs, so they are
oracle inputs. -/
structure Env where
  caps : Except Unit SurfaceCaps
  first_surface_format : Except Unit (Option (Nat × Nat))
  dimension : Nat × Nat

/-- Driver outcomes for the external calls inside Swapchain::new: chain
creation (vk Swapchain::new, returning the image list) and render-pass
derivation (vkenv.new_render_pass). -/
structure CreateDriver where
  chain : Except Unit (List Nat)
  render_pass_res : Except Unit Unit

/-- Rust struct Swapchain (lines 119-125); the render_pass handle carries
no data the logic reads back, so it is not stored. -/
structure Swapchain where
  swapchain : VkSwapchain
  framebuffers : Framebuffers
  previous_image_index : Nat

/-- Swapchain::new (lines 128-156). -/
def Swapchain.new (env : Env) (d : CreateDriver) : Except VkErr Swapchain :=
  match env.caps with
  | .error _ => .error .setup
  | .ok caps =>
    match caps.supported_composite_alpha.head? with
    | none => .error .config
    | some _composite_alpha =>
      match env.first_surface_format with
      | .error _ => .error .setup
      | .ok fmt =>
        match d.chain with
        | .error _ => .error .setup
        | .ok images =>
          match d.render_pass_res with
          | .error _ => .error .setup
          | .ok _ =>
            .ok { swapchain :=
                    { create_info :=
                        { min_image_count := caps.min_image_count + 1
                          image_format := fmt.map Prod.fst
                          image_extent := env.dimension }
                      images := images }
                  framebuffers := Framebuffers.new images
                  previous_image_index := 0 }

/-- Driver outcomes for the external calls inside Swapchain::recreate: the
chain recreation result (new image list) and the surface dimension read for
the new extent. -/
structure RecreateDriver where
  newImages : Except Unit (List Nat)
  dimension : Nat × Nat

/-- Swapchain::recreate (lines 157-169): rebuild the chain with the current
dimension and the otherwise-unchanged create info, rebuild the framebuffer
set, restore the cached callback onto it, and replay the callback.  Note
previous_image_index is left untouched. -/
def Swapchain.recreate (s : Swapchain) (d : RecreateDriver) :
    Swapchain × Option VkErr :=
  match d.newImages with
  | .error _ => (s, some .setup)
  | .ok images =>
    let sc : VkSwapchain :=
      { create_info := { s.swapchain.create_info with image_extent := d.dimension }
        images := images }
    let cb_builder := s.framebuffers.cb_builder
    let fbs := Framebuffers.new images
    let fbs := { fbs with cb_builder := cb_builder }
    let r := fbs.update_command_buffer
    ({ swapchain := sc, framebuffers := r.1,
       previous_image_index := s.previous_image_index },
     r.2.map VkErr.recording)

/-- What vk::swapchain::acquire_next_image reports in a given draw call. -/
inductive AcquireOutcome where
  | acquired : Nat → Bool → AcquireOutcome
  | outOfDate : AcquireOutcome
  | otherError : AcquireOutcome
deriving DecidableEq

/-- What then_signal_fence_and_flush reports in a given draw call. -/
inductive FlushOutcome where
  | flushed : FlushOutcome
  | outOfDate : FlushOutcome
  | otherError : FlushOutcome
deriving DecidableEq

/-- Driver oracle for one draw call: the acquire outcome, the Result the
waited fence closure returns (true = Ok), the flush outcome, and the
recreate-call oracle used if draw schedules recreation. -/
structure DrawDriver where
  acquire : AcquireOutcome
  waitOk : Bool
  flush : FlushOutcome
  onRecreate : RecreateDriver

/-- How a draw call ends: Ok(()), Err(e), or a Rust panic. -/
inductive DrawResult where
  | ok : DrawResult
  | err : VkErr → DrawResult
  | panicked : DrawResult
deriving DecidableEq

/-- Writing self.framebuffers[i].fence = f (resp. the in-place mutation of
the fence through the &mut borrow).  Out-of-range writes do not occur in
draw: every write is preceded by an in-bounds read of the same index, and
the out-of-range reads themselves are modelled as panics. -/
def setFence : List Framebuffer → Nat → Option Fence → List Framebuffer
  | [], _, _ => []
  | fb :: rest, 0, f => { fb with fence := f } :: rest
  | fb :: rest, i + 1, f => fb :: setFence rest i f

/-- Outcome of the labelled block (lines 173-240) of draw: a panic, an
early error return, or completion carrying the recreate_swapchain flag. -/
inductive BlockOut where
  | panicked : BlockOut
  | errored : VkErr → BlockOut
  | done : Bool → BlockOut
deriving DecidableEq

/-- Lines 203-239 of draw: fetch the recorded command buffer, build and
flush the submission/present chain, store or clear the fence, advance the
cursor. -/
def Swapchain.drawSubmit (s : Swapchain) (d : DrawDriver) (image_i : Nat)
    (suboptimal : Bool) (fbAcq : Framebuffer) (usedNow : Bool) :
    Swapchain × BlockOut × Bool × Bool :=
  match fbAcq.command_buffer with
  | none => (s, .errored .noCommandBuffer, usedNow, false)
  | some _cmd =>
    match d.flush with
    | .flushed =>
      let new_fence : Fence := { into_boxed_closure := some (), wait_closure := some () }
      let s1 := { s with framebuffers :=
        { s.framebuffers with
          list := setFence s.framebuffers.list image_i (some new_fence) } }
      ({ s1 with previous_image_index := image_i }, .done suboptimal, usedNow, true)
    | .outOfDate =>
      let s1 := { s with framebuffers :=
        { s.framebuffers with
          list := setFence s.framebuffers.list image_i none } }
      ({ s1 with previous_image_index := image_i }, .done true, usedNow, true)
    | .otherError => (s, .errored .flush, usedNow, true)

/-- Lines 188-239 of draw: acquire, per-slot fence wait, submission chain,
flush handling, cursor update. -/
def Swapchain.drawAfterFuture (s : Swapchain) (d : DrawDriver) (usedNow : Bool) :
    Swapchain × BlockOut × Bool × Bool :=
  match d.acquire with
  | .outOfDate => (s, .done true, usedNow, false)
  | .otherError => (s, .panicked, usedNow, false)
  | .acquired image_i suboptimal =>
    match s.framebuffers.list[image_i]? with
    | none => (s, .panicked, usedNow, false)
    | some fbAcq =>
      match fbAcq.fence with
      | none => Swapchain.drawSubmit s d image_i suboptimal fbAcq usedNow
      | some f =>
        match f.wait with
        | none => (s, .panicked, usedNow, false)
        | some f1 =>
          let s1 := { s with framebuffers :=
            { s.framebuffers with
              list := setFence s.framebuffers.list image_i (some f1) } }
          if d.waitOk then
            Swapchain.drawSubmit s1 d image_i suboptimal fbAcq usedNow
          else
            (s1, .errored .waitFence, usedNow, false)

/-- The labelled block of Swapchain::draw (lines 173-240).  Returns the
state as mutated so far, the block outcome, whether step 1 synthesized a
now-future (the None fence arm, lines 178-183), and whether the
submit/present/flush chain (lines 205-213) was reached. -/
def Swapchain.drawBlock (s : Swapchain) (d : DrawDriver) :
    Swapchain × BlockOut × Bool × Bool :=
  match s.framebuffers.list[s.previous_image_index]? with
  | none => (s, .panicked, false, false)
  | some fbPrev =>
    match fbPrev.fence with
    | none => Swapchain.drawAfterFuture s d true
    | some f =>
      match f.get_boxed with
      | none => (s, .panicked, false, false)
      | some f1 =>
        let s1 := { s with framebuffers :=
          { s.framebuffers with
            list := setFence s.framebuffers.list s.previous_image_index (some f1) } }
        Swapchain.drawAfterFuture s1 d false

/-- Observable outcome of one Swapchain::draw call: final state, result,
whether step 1 synthesized a now-future, whether the submit/present/flush
chain was reached, and how many recreate() calls draw performed. -/
structure DrawOut where
  state : Swapchain
  result : DrawResult
  usedNowFuture : Bool
  flushAttempted : Bool
  recreateCalls : Nat

/-- Swapchain::draw (lines 170-245): run the labelled block, then recreate
once if the block requested it (lines 241-243). -/
def Swapchain.draw (s : Swapchain) (d : DrawDriver) : DrawOut :=
  match s.drawBlock d with
  | (s1, .panicked, un, fa) =>
    { state := s1, result := .panicked, usedNowFuture := un,
      flushAttempted := fa, recreateCalls := 0 }
  | (s1, .errored e, un, fa) =>
    { state := s1, result := .err e, usedNowFuture := un,
      flushAttempted := fa, recreateCalls := 0 }
  | (s1, .done rs, un, fa) =>
    if rs then
      match s1.recreate d.onRecreate with
      | (s2, some e) =>
        { state := s2, result := .err e, usedNowFuture := un,
          flushAttempted := fa, recreateCalls := 1 }
      | (s2, none) =>
        { state := s2, result := .ok, usedNowFuture := un,
          flushAttempted := fa, recreateCalls := 1 }
    else
      { state := s1, result := .ok, usedNowFuture := un,
        flushAttempted := fa, recreateCalls := 0 }

/-- Iterated draw: the application tick loop in main.rs, one driver oracle
per tick; returns the final state and the total number of recreate()
calls. -/
def Swapchain.drawSeq (s : Swapchain) : List DrawDriver → Swapchain × Nat
  | [] => (s, 0)
  | d :: ds =>
    let out := s.draw d
    let r := out.state.drawSeq ds
    (r.1, out.recreateCalls + r.2)

/-- Projection: the recorded command sequences, in target order. -/
def Framebuffers.cmdBufs (fbs : Framebuffers) : List (Option Nat) :=
  fbs.list.map Framebuffer.command_buffer

/-- Projection: which targets currently hold a Completion Token. -/
def Framebuffers.fencePresence (fbs : Framebuffers) : List Bool :=
  fbs.list.map (fun fb => fb.fence.isSome)

/-- The fence stored at the cursor slot, when the cursor is in range. -/
def Swapchain.prevFence (s : Swapchain) : Option Fence :=
  s.framebuffers.list[s.previous_image_index]?.bind Framebuffer.fence

/-- Boolean success test for an Except value. -/
def exceptOk {ε α : Type} : Except ε α → Bool
  | .ok _ => true
  | .error _ => false

/-- The spec invariant on the cursor: sentinel initial value (0) or a valid
index into the Render Target Set. -/
def cursorInv (s : Swapchain) : Prop :=
  s.previous_image_index = 0 ∨
    s.previous_image_index < s.framebuffers.list.length

/-
Concrete instances used by witnesses and counterexamples.
-/

/-- Sample surface capabilities: minimum image count 2, one alpha mode. -/
def capsW : SurfaceCaps := { min_image_count := 2, supported_composite_alpha := [0] }

/-- Sample environment for Swapchain::new. -/
def envW : Env :=
  { caps := .ok capsW
    first_surface_format := .ok (some (1, 0))
    dimension := (640, 480) }

/-- Sample creation driver: the device returns three images. -/
def cdW : CreateDriver := { chain := .ok [0, 1, 2], render_pass_res := .ok () }

/-- Sample recording callback: records content 7 into every target. -/
def cbW : Callback := fun _ => .ok 7

/-- The chain Swapchain.new envW cdW produces. -/
def swW : Swapchain :=
  { swapchain :=
      { create_info := { min_image_count := 3, image_format := some 1, image_extent := (640, 480) }
        images := [0, 1, 2] }
    framebuffers := Framebuffers.new [0, 1, 2]
    previous_image_index := 0 }

/-- The framebuffer set after record_all cbW on swW. -/
def fbs1W : Framebuffers :=
  { list := [ { image := 0, command_buffer := some 7, fence := none },
              { image := 1, command_buffer := some 7, fence := none },
              { image := 2, command_buffer := some 7, fence := none } ]
    cb_builder := some cbW }

/-- swW after record_all cbW. -/
def s1W : Swapchain := { swW with framebuffers := fbs1W }

/-- Driver for a quiet draw tick acquiring image 0. -/
def dOk : DrawDriver :=
  { acquire := .acquired 0 false
    waitOk := true
    flush := .flushed
    onRecreate := { newImages := .ok [0, 1, 2], dimension := (640, 480) } }

/-- Driver for a quiet draw tick acquiring image 1. -/
def dOk1 : DrawDriver := { dOk with acquire := .acquired 1 false }

/-- Driver whose acquisition reports the chain out of date. -/
def dOOD : DrawDriver :=
  { acquire := .outOfDate
    waitOk := true
    flush := .flushed
    onRecreate := { newImages := .ok [0, 1], dimension := (640, 480) } }

/-- A freshly created Completion Token: both closures present. -/
def fence0 : Fence := { into_boxed_closure := some (), wait_closure := some () }

/-- fence0 after get_boxed. -/
def fence1 : Fence := { into_boxed_closure := none, wait_closure := some () }

/-- fence1 after wait. -/
def fence2 : Fence := { into_boxed_closure := none, wait_closure := none }

/-- A callback recording content 9 into target 0 and failing (payload 3)
on every other target. -/
def cbBad : Callback := fun i => if i = 0 then .ok 9 else .error 3

/-- A two-target set previously recorded by cbW (content 7 everywhere). -/
def fbsC3 : Framebuffers :=
  { list := [ { image := 0, command_buffer := some 7, fence := none },
              { image := 1, command_buffer := some 7, fence := none } ]
    cb_builder := some cbW }

/-- A two-target chain whose cursor points at the second target. -/
def sC4 : Swapchain :=
  { swapchain :=
      { create_info := { min_image_count := 3, image_format := some 1, image_extent := (1, 1) }
        images := [0, 1] }
    framebuffers := { list := [Framebuffer.new 0, Framebuffer.new 1], cb_builder := none }
    previous_image_index := 1 }

/-- A recreation in which the device hands back a single image. -/
def rdC4 : RecreateDriver := { newImages := .ok [5], dimension := (1, 1) }

/-- A recreation handing back two fresh images. -/
def rdW : RecreateDriver := { newImages := .ok [4, 5], dimension := (3, 3) }

/-- A recreation handing back three fresh images. -/
def rdBig : RecreateDriver := { newImages := .ok [7, 8, 9], dimension := (1, 1) }

/-
Helper lemmas about the record loop and the in-place fence writes.
-/

theorem length_setFence (l : List Framebuffer) (i : Nat) (f : Option Fence) :
    (setFence l i f).length = l.length := by
  induction l generalizing i with
  | nil => rfl
  | cons fb rest ih =>
    cases i with
    | zero => rfl
    | succ j => simp [setFence, ih]

theorem map_cmd_setFence (l : List Framebuffer) (i : Nat) (f : Option Fence) :
    (setFence l i f).map Framebuffer.command_buffer = l.map Framebuffer.command_buffer := by
  induction l generalizing i with
  | nil => rfl
  | cons fb rest ih =>
    cases i with
    | zero => simp [setFence]
    | succ j => simp [setFence, ih]

theorem setFence_get_eq (l : List Framebuffer) (i : Nat) (f : Option Fence)
    (fb : Framebuffer) (h : l[i]? = some fb) :
    (setFence l i f)[i]? = some { fb with fence := f } := by
  induction l generalizing i with
  | nil => simp at h
  | cons fb0 rest ih =>
    cases i with
    | zero => simp at h; simp [setFence, h]
    | succ j => simp at h; simpa [setFence] using ih j h

theorem setFence_get_ne (l : List Framebuffer) (i : Nat) (f : Option Fence)
    (j : Nat) (h : j ≠ i) : (setFence l i f)[j]? = l[j]? := by
  induction l generalizing i j with
  | nil => rfl
  | cons fb0 rest ih =>
    cases i with
    | zero =>
      cases j with
      | zero => exact absurd rfl h
      | succ j2 => simp [setFence]
    | succ i2 =>
      cases j with
      | zero => simp [setFence]
      | succ j2 => simpa [setFence] using ih i2 j2 (fun he => h (by rw [he]))

theorem map_fence_isSome_setFence (l : List Framebuffer) (i : Nat) (f : Option Fence)
    (h : ∀ fb, l[i]? = some fb → f.isSome = fb.fence.isSome) :
    (setFence l i f).map (fun fb => fb.fence.isSome) =
      l.map (fun fb => fb.fence.isSome) := by
  induction l generalizing i with
  | nil => rfl
  | cons fb rest ih =>
    cases i with
    | zero =>
      simp only [setFence, List.map_cons]
      rw [show ({ fb with fence := f } : Framebuffer).fence.isSome = f.isSome from rfl,
        h fb (by simp)]
    | succ j =>
      simp only [setFence, List.map_cons]
      rw [ih j (fun fb2 h2 => h fb2 (by simpa using h2))]

theorem recordListGo_length (cb : Callback) (l : List Framebuffer) :
    (recordListGo cb l).1.length = l.length := by
  induction l with
  | nil => rfl
  | cons fb rest ih =>
    cases h : cb fb.image with
    | error e => simp [recordListGo, Framebuffer.build_command_buffer, h]
    | ok v => simp [recordListGo, Framebuffer.build_command_buffer, h, ih]

theorem recordListGo_none_of_all (cb : Callback) (l : List Framebuffer)
    (h : ∀ fb ∈ l, exceptOk (cb fb.image) = true) :
    (recordListGo cb l).2 = none := by
  induction l with
  | nil => rfl
  | cons fb rest ih =>
    have hfb := h fb (by simp)
    cases hc : cb fb.image with
    | error e => rw [hc] at hfb; simp [exceptOk] at hfb
    | ok v =>
      simp only [recordListGo, Framebuffer.build_command_buffer, hc]
      exact ih (fun fb2 hm => h fb2 (by simp [hm]))

theorem recordListGo_mem_of_none (cb : Callback) (l : List Framebuffer)
    (h : (recordListGo cb l).2 = none) :
    ∀ fb1 ∈ (recordListGo cb l).1,
      ∃ v, cb fb1.image = .ok v ∧ fb1.command_buffer = some v := by
  induction l with
  | nil => intro fb1 hm; simp [recordListGo] at hm
  | cons fb rest ih =>
    cases hc : cb fb.image with
    | error e =>
      exfalso
      simp [recordListGo, Framebuffer.build_command_buffer, hc] at h
    | ok v =>
      simp only [recordListGo, Framebuffer.build_command_buffer, hc] at h ⊢
      intro fb1 hm
      rcases List.mem_cons.mp hm with rfl | hm2
      · exact ⟨v, hc, rfl⟩
      · exact ih h fb1 hm2

theorem recordListGo_error_spec (cb : Callback) (l : List Framebuffer) (e : Nat)
    (h : (recordListGo cb l).2 = some e) :
    ∃ k, k < l.length ∧
      (∀ j, k ≤ j → (recordListGo cb l).1[j]? = l[j]?) ∧
      (∀ j, j < k → ∃ fb v, l[j]? = some fb ∧ cb fb.image = .ok v ∧
        (recordListGo cb l).1[j]? = some { fb with command_buffer := some v }) ∧
      (∃ fb, l[k]? = some fb ∧ cb fb.image = .error e) := by
  induction l with
  | nil => simp [recordListGo] at h
  | cons fb rest ih =>
    cases hc : cb fb.image with
    | error e2 =>
      have he : e2 = e := by
        simpa [recordListGo, Framebuffer.build_command_buffer, hc] using h
      subst he
      refine ⟨0, by simp, ?_, by omega, ⟨fb, by simp, hc⟩⟩
      intro j _
      simp [recordListGo, Framebuffer.build_command_buffer, hc]
    | ok v =>
      simp only [recordListGo, Framebuffer.build_command_buffer, hc] at h ⊢
      obtain ⟨k, hk, hsame, hbefore, hfail⟩ := ih h
      refine ⟨k + 1, by simpa using hk, ?_, ?_, ?_⟩
      · intro j hj
        cases j with
        | zero => omega
        | succ j2 => simpa using hsame j2 (by omega)
      · intro j hj
        cases j with
        | zero => exact ⟨fb, v, by simp, hc, by simp⟩
        | succ j2 =>
          obtain ⟨fb2, v2, hg, hcb2, hg2⟩ := hbefore j2 (by omega)
          exact ⟨fb2, v2, by simpa using hg, hcb2, by simpa using hg2⟩
      · obtain ⟨fb2, hget, herr⟩ := hfail
        exact ⟨fb2, by simpa using hget, herr⟩

theorem build_command_buffer_cb_of_none (fbs : Framebuffers) (cb : Callback)
    (fbs1 : Framebuffers) (h : fbs.build_command_buffer cb = (fbs1, none)) :
    fbs1.cb_builder = some cb := by
  unfold Framebuffers.build_command_buffer at h
  cases hr : recordListGo cb fbs.list with
  | mk l err =>
    rw [hr] at h
    cases err with
    | none => cases h; rfl
    | some e => simp at h

theorem recreate_cursor_unchanged (s : Swapchain) (rd : RecreateDriver) :
    (s.recreate rd).1.previous_image_index = s.previous_image_index := by
  unfold Swapchain.recreate
  cases hn : rd.newImages <;> rfl

theorem recreate_cb_builder (s : Swapchain) (rd : RecreateDriver) :
    (s.recreate rd).1.framebuffers.cb_builder = s.framebuffers.cb_builder := by
  unfold Swapchain.recreate
  cases hn : rd.newImages with
  | error u => rfl
  | ok imgs =>
    unfold Framebuffers.update_command_buffer
    cases hcb : s.framebuffers.cb_builder with
    | none => simp [hcb]
    | some cb => simp [hcb]

theorem recreate_length (s : Swapchain) (rd : RecreateDriver) :
    (s.recreate rd).1.framebuffers.list.length = s.framebuffers.list.length ∨
    ∃ imgs, rd.newImages = .ok imgs ∧
      (s.recreate rd).1.framebuffers.list.length = imgs.length := by
  unfold Swapchain.recreate
  cases hn : rd.newImages with
  | error u => left; rfl
  | ok imgs =>
    right
    refine ⟨imgs, rfl, ?_⟩
    unfold Framebuffers.update_command_buffer
    cases hcb : s.framebuffers.cb_builder with
    | none => simp [hcb, Framebuffers.new]
    | some cb => simp [hcb, recordListGo_length, Framebuffers.new]

theorem recreate_none_of (s : Swapchain) (rd : RecreateDriver) (imgs : List Nat)
    (himg : rd.newImages = .ok imgs)
    (hcb : ∀ cb, s.framebuffers.cb_builder = some cb →
      ∀ i ∈ imgs, exceptOk (cb i) = true) :
    (s.recreate rd).2 = none := by
  unfold Swapchain.recreate
  rw [himg]
  unfold Framebuffers.update_command_buffer
  cases hcbb : s.framebuffers.cb_builder with
  | none => simp [hcbb]
  | some cb =>
    simp only [hcbb]
    have hall : ∀ fb ∈ (imgs.map Framebuffer.new), exceptOk (cb fb.image) = true := by
      intro fb hm
      rw [List.mem_map] at hm
      obtain ⟨i, hi, rfl⟩ := hm
      simpa [Framebuffer.new] using hcb cb hcbb i hi
    simp [Framebuffers.new, recordListGo_none_of_all cb _ hall]

theorem recreate_replays_spec (s : Swapchain) (rd : RecreateDriver) (cb : Callback)
    (imgs : List Nat) (hcb : s.framebuffers.cb_builder = some cb)
    (himgs : rd.newImages = .ok imgs) (hok : (s.recreate rd).2 = none) :
    (s.recreate rd).1.framebuffers.cb_builder = some cb ∧
    (s.recreate rd).1.framebuffers.list.length = imgs.length ∧
    ∀ fb ∈ (s.recreate rd).1.framebuffers.list,
      ∃ v, cb fb.image = .ok v ∧ fb.command_buffer = some v := by
  unfold Swapchain.recreate at hok ⊢
  rw [himgs] at hok ⊢
  unfold Framebuffers.update_command_buffer at hok ⊢
  simp only [hcb] at hok ⊢
  simp only [Framebuffers.new] at hok ⊢
  have hnone : (recordListGo cb (imgs.map Framebuffer.new)).2 = none := by
    simpa using hok
  refine ⟨by trivial, ?_, ?_⟩
  · simp [recordListGo_length]
  · intro fb hm
    exact recordListGo_mem_of_none cb (imgs.map Framebuffer.new) hnone fb (by simpa using hm)

/-- C8: Swapchain::new requests exactly one more presentable image than the
minimum image count advertised by the surface capabilities (render.rs line
138: min_image_count + 1). -/
theorem new_requests_min_plus_one (env : Env) (cd : CreateDriver) (s : Swapchain)
    (caps : SurfaceCaps) (hcaps : env.caps = .ok caps)
    (h : Swapchain.new env cd = .ok s) :
    s.swapchain.create_info.min_image_count = caps.min_image_count + 1 := by
  unfold Swapchain.new at h
  simp only [hcaps] at h
  cases hhd : caps.supported_composite_alpha.head? with
  | none => simp only [hhd] at h; exact absurd h (by simp)
  | some a =>
    simp only [hhd] at h
    cases hfmt : env.first_surface_format with
    | error u => simp only [hfmt] at h; exact absurd h (by simp)
    | ok fmt =>
      simp only [hfmt] at h
      cases hch : cd.chain with
      | error u => simp only [hch] at h; exact absurd h (by simp)
      | ok images =>
        simp only [hch] at h
        cases hrp : cd.render_pass_res with
        | error u => simp only [hrp] at h; exact absurd h (by simp)
        | ok u =>
          simp only [hrp, Except.ok.injEq] at h
          subst h
          rfl

/-- Witness for C8: on the sample environment (minimum image count 2) the
created chain records a requested count of 3. -/
theorem new_requests_min_plus_one_witness :
    swW.swapchain.create_info.min_image_count = capsW.min_image_count + 1 :=
  new_requests_min_plus_one envW cdW swW capsW rfl rfl

/-- C9: Framebuffers::update_command_buffer is a no-op returning success
when no callback is cached (it returns the set unchanged), and otherwise it
coincides with re-running record_all (Framebuffers::build_command_buffer)
with the cached callback, re-recording every target with it. -/
theorem update_replay_spec (fbs : Framebuffers) :
    (fbs.cb_builder = none → fbs.update_command_buffer = (fbs, none)) ∧
    (∀ cb, fbs.cb_builder = some cb →
      fbs.update_command_buffer = fbs.build_command_buffer cb) := by
  obtain ⟨list0, cbb0⟩ := fbs
  constructor
  · intro h
    subst h
    rfl
  · intro cb h
    subst h
    unfold Framebuffers.update_command_buffer Framebuffers.build_command_buffer
    simp only
    rcases hr : recordListGo cb list0 with ⟨l, err⟩
    cases err <;> rfl

/-- Witness for C9: on the recorded two-target set the replay equals
record_all with the cached callback, and a caller-visible projection of
that equality (the recorded contents after replay). -/
theorem update_replay_spec_witness :
    fbsC3.update_command_buffer = fbsC3.build_command_buffer cbW ∧
    (fbsC3.update_command_buffer).1.cmdBufs = [some 7, some 7] :=
  ⟨(update_replay_spec fbsC3).2 cbW rfl, by decide⟩

/-- C2 counterexample: the claim says that after performing one of the two
reads (get_boxed or wait) once, no further read of the token succeeds.  On
a freshly created token, get_boxed succeeds (leaving fence1 stored) and a
subsequent wait on the same token still succeeds: the two closures are
taken independently (render.rs lines 12-19), so the token stays readable
through the other closure.  draw even relies on this: a token whose boxed
future was taken at the cursor slot is later waited on at the acquired
slot. -/
theorem fence_second_read_succeeds_cex :
    Fence.get_boxed fence0 = some fence1 ∧ Fence.wait fence1 = some fence2 := by
  constructor <;> rfl

/-- C2 amended: each of the two reads is individually exactly-once — after
get_boxed, a second get_boxed panics (returns none), and after wait, a
second wait panics — but the two reads are independent, so a token is only
fully consumed after both. -/
theorem fence_same_op_consumed_once :
    (∀ f f1 : Fence, Fence.get_boxed f = some f1 → Fence.get_boxed f1 = none) ∧
    (∀ f f1 : Fence, Fence.wait f = some f1 → Fence.wait f1 = none) := by
  constructor
  · intro f f1 h
    cases hf : f.into_boxed_closure with
    | none => unfold Fence.get_boxed at h; rw [hf] at h; simp at h
    | some u =>
      unfold Fence.get_boxed at h
      rw [hf] at h
      simp at h
      subst h
      rfl
  · intro f f1 h
    cases hf : f.wait_closure with
    | none => unfold Fence.wait at h; rw [hf] at h; simp at h
    | some u =>
      unfold Fence.wait at h
      rw [hf] at h
      simp at h
      subst h
      rfl

/-- Witness for the amended C2: a second get_boxed on the already-taken
token fence1 panics. -/
theorem fence_same_op_consumed_once_witness :
    Fence.get_boxed fence1 = none :=
  fence_same_op_consumed_once.1 fence0 fence1 rfl

/-- C3 counterexample: the claim says a failing record_all mutates no
persisted state.  On the two-target set previously recorded with content 7,
recording with cbBad (which succeeds with content 9 on target 0 and fails
with payload 3 on target 1) surfaces the error but leaves target 0
re-recorded with the new content 9. -/
theorem record_all_error_mutates_cex :
    (fbsC3.build_command_buffer cbBad).2 = some 3 ∧
    (fbsC3.build_command_buffer cbBad).1.cmdBufs = [some 9, some 7] ∧
    (fbsC3.build_command_buffer cbBad).1.cmdBufs ≠ fbsC3.cmdBufs := by
  refine ⟨by decide, by decide, by decide⟩

/-- C3 amended: when the callback fails on some target, the error surfaces
immediately from record_all and the cached callback is not updated; the
failing target and every later one keep their previous recorded sequences,
while the targets before the failing one have already been re-recorded with
the new callback. -/
theorem record_all_error_spec (fbs : Framebuffers) (cb : Callback) (e : Nat)
    (h : (fbs.build_command_buffer cb).2 = some e) :
    (fbs.build_command_buffer cb).1.cb_builder = fbs.cb_builder ∧
    ∃ k, k < fbs.list.length ∧
      (∀ j, k ≤ j → (fbs.build_command_buffer cb).1.list[j]? = fbs.list[j]?) ∧
      (∀ j, j < k → ∃ fb v, fbs.list[j]? = some fb ∧ cb fb.image = .ok v ∧
        (fbs.build_command_buffer cb).1.list[j]? =
          some { fb with command_buffer := some v }) ∧
      ∃ fb, fbs.list[k]? = some fb ∧ cb fb.image = .error e := by
  have hr2 : (recordListGo cb fbs.list).2 = some e := by
    unfold Framebuffers.build_command_buffer at h
    rcases hr : recordListGo cb fbs.list with ⟨l, err⟩
    rw [hr] at h
    cases err with
    | none => simp at h
    | some e2 => simpa using h
  have hl : (fbs.build_command_buffer cb).1.list = (recordListGo cb fbs.list).1 ∧
      (fbs.build_command_buffer cb).1.cb_builder = fbs.cb_builder := by
    unfold Framebuffers.build_command_buffer
    rcases hr : recordListGo cb fbs.list with ⟨l, err⟩
    rw [hr] at hr2
    cases err with
    | none => simp at hr2
    | some e2 => exact ⟨rfl, rfl⟩
  obtain ⟨hla, hcb⟩ := hl
  rw [hla]
  exact ⟨hcb, recordListGo_error_spec cb fbs.list e hr2⟩

/-- Witness for the amended C3, at the concrete failing recording: failing
index 1, target 0 re-recorded, target 1 untouched, cache unchanged. -/
theorem record_all_error_spec_witness :
    (fbsC3.build_command_buffer cbBad).1.cb_builder = fbsC3.cb_builder ∧
    ∃ k, k < fbsC3.list.length ∧
      (∀ j, k ≤ j → (fbsC3.build_command_buffer cbBad).1.list[j]? = fbsC3.list[j]?) ∧
      (∀ j, j < k → ∃ fb v, fbsC3.list[j]? = some fb ∧ cbBad fb.image = .ok v ∧
        (fbsC3.build_command_buffer cbBad).1.list[j]? =
          some { fb with command_buffer := some v }) ∧
      ∃ fb, fbsC3.list[k]? = some fb ∧ cbBad fb.image = .error 3 :=
  record_all_error_spec fbsC3 cbBad 3 (by decide)

/-- C4 counterexample: the claim says the cursor invariant (valid index or
sentinel) is preserved by recreate even when the image count changes.  On a
two-target chain with cursor 1, a successful recreate in which the device
hands back a single image leaves the cursor at 1 with only one target: the
cursor is neither the sentinel 0 nor in range (the code never resets it,
render.rs lines 157-169). -/
theorem cursor_invariant_cex :
    cursorInv sC4 ∧ (sC4.recreate rdC4).2 = none ∧
    ¬ cursorInv (sC4.recreate rdC4).1 := by
  refine ⟨Or.inr (by decide), by decide, ?_⟩
  intro hinv
  rcases hinv with h | h <;> revert h <;> decide

/-- C5: after a successful record_all(cb), a successful recreate carries
the cached callback forward and replays it: the new Render Target Set still
caches cb, has one target per new image, and every target holds a recorded
sequence produced by cb (never an unset one), with no caller intervention. -/
theorem recreate_after_record_all (s0 : Swapchain) (cb : Callback)
    (fbs1 : Framebuffers) (rd : RecreateDriver) (imgs : List Nat)
    (hrec : s0.framebuffers.build_command_buffer cb = (fbs1, none))
    (himgs : rd.newImages = .ok imgs)
    (hok : (Swapchain.recreate { s0 with framebuffers := fbs1 } rd).2 = none) :
    (Swapchain.recreate { s0 with framebuffers := fbs1 } rd).1.framebuffers.cb_builder = some cb ∧
    (Swapchain.recreate { s0 with framebuffers := fbs1 } rd).1.framebuffers.list.length = imgs.length ∧
    ∀ fb ∈ (Swapchain.recreate { s0 with framebuffers := fbs1 } rd).1.framebuffers.list,
      ∃ v, cb fb.image = .ok v ∧ fb.command_buffer = some v := by
  have hcb : (({ s0 with framebuffers := fbs1 } : Swapchain)).framebuffers.cb_builder = some cb :=
    build_command_buffer_cb_of_none s0.framebuffers cb fbs1 hrec
  exact recreate_replays_spec _ rd cb imgs hcb himgs hok

/-- Witness for C5: recording swW with cbW then recreating onto images
[4, 5] replays cbW onto both new targets. -/
theorem recreate_after_record_all_witness :
    (Swapchain.recreate { swW with framebuffers := fbs1W } rdW).1.framebuffers.cb_builder = some cbW ∧
    (Swapchain.recreate { swW with framebuffers := fbs1W } rdW).1.framebuffers.list.length = [4, 5].length ∧
    ∀ fb ∈ (Swapchain.recreate { swW with framebuffers := fbs1W } rdW).1.framebuffers.list,
      ∃ v, cbW fb.image = .ok v ∧ fb.command_buffer = some v :=
  recreate_after_record_all swW cbW fbs1W rdW [4, 5] rfl rfl rfl

theorem drawBlock_step1 (s : Swapchain) (d : DrawDriver)
    (hcur : s.previous_image_index < s.framebuffers.list.length)
    (hfence : ∀ f, s.prevFence = some f → f.into_boxed_closure.isSome = true) :
    ∃ (s1 : Swapchain) (un : Bool), s.drawBlock d = Swapchain.drawAfterFuture s1 d un ∧
      s1.previous_image_index = s.previous_image_index ∧
      s1.framebuffers.cb_builder = s.framebuffers.cb_builder ∧
      s1.framebuffers.fencePresence = s.framebuffers.fencePresence ∧
      s1.framebuffers.cmdBufs = s.framebuffers.cmdBufs ∧
      s1.framebuffers.list.length = s.framebuffers.list.length ∧
      (un = true ↔ s.prevFence = none) ∧
      (∀ (j : Nat) (fb : Framebuffer), s.framebuffers.list[j]? = some fb →
        ∃ (fb1 : Framebuffer), s1.framebuffers.list[j]? = some fb1 ∧ fb1.image = fb.image ∧
          fb1.command_buffer = fb.command_buffer ∧
          fb1.fence.map Fence.wait_closure = fb.fence.map Fence.wait_closure) := by
  obtain ⟨fbPrev, hget⟩ : ∃ fb, s.framebuffers.list[s.previous_image_index]? = some fb := by
    rw [List.getElem?_eq_getElem hcur]
    exact ⟨_, rfl⟩
  have hpf : s.prevFence = fbPrev.fence := by
    unfold Swapchain.prevFence
    rw [hget]
    rfl
  cases hf : fbPrev.fence with
  | none =>
    refine ⟨s, true, ?_, rfl, rfl, rfl, rfl, rfl, by simp [hpf, hf], ?_⟩
    · unfold Swapchain.drawBlock
      simp only [hget, hf]
    · intro j fb h
      exact ⟨fb, h, rfl, rfl, rfl⟩
  | some f =>
    obtain ⟨u, hu⟩ := Option.isSome_iff_exists.mp (hfence f (by rw [hpf, hf]))
    have hgb : Fence.get_boxed f = some { f with into_boxed_closure := none } := by
      simp [Fence.get_boxed, hu]
    refine ⟨{ s with framebuffers := { s.framebuffers with
        list := setFence s.framebuffers.list s.previous_image_index
          (some { f with into_boxed_closure := none }) } }, false,
      ?_, rfl, rfl, ?_, ?_, ?_, ?_, ?_⟩
    · unfold Swapchain.drawBlock
      simp only [hget, hf, hgb]
    · unfold Framebuffers.fencePresence
      exact map_fence_isSome_setFence _ _ _
        (by intro fb2 hh; rw [hget] at hh; cases hh; rw [hf]; rfl)
    · unfold Framebuffers.cmdBufs
      exact map_cmd_setFence _ _ _
    · exact length_setFence _ _ _
    · simp [hpf, hf]
    · intro j fb h
      by_cases hji : j = s.previous_image_index
      · subst hji
        rw [hget] at h
        cases h
        refine ⟨_, setFence_get_eq _ _ _ _ hget, rfl, rfl, ?_⟩
        rw [hf]
        rfl
      · exact ⟨fb, by rw [setFence_get_ne _ _ _ _ hji]; exact h, rfl, rfl, rfl⟩

theorem drawAfterFuture_outOfDate (s : Swapchain) (d : DrawDriver) (un : Bool)
    (h : d.acquire = .outOfDate) :
    s.drawAfterFuture d un = (s, .done true, un, false) := by
  unfold Swapchain.drawAfterFuture
  rw [h]

theorem drawAfterFuture_noCmd (s : Swapchain) (d : DrawDriver) (un : Bool)
    (i : Nat) (sub : Bool) (fb : Framebuffer)
    (hacq : d.acquire = .acquired i sub)
    (hget : s.framebuffers.list[i]? = some fb)
    (hwf : ∀ f, fb.fence = some f → f.wait_closure.isSome = true)
    (hcmd : fb.command_buffer = none) :
    ∃ (s2 : Swapchain) (e : VkErr), s.drawAfterFuture d un = (s2, .errored e, un, false) ∧
      s2.previous_image_index = s.previous_image_index ∧
      s2.framebuffers.fencePresence = s.framebuffers.fencePresence := by
  cases hf : fb.fence with
  | none =>
    refine ⟨s, .noCommandBuffer, ?_, rfl, rfl⟩
    unfold Swapchain.drawAfterFuture Swapchain.drawSubmit
    simp only [hacq, hget, hf, hcmd]
  | some f =>
    obtain ⟨u, hu⟩ := Option.isSome_iff_exists.mp (hwf f hf)
    have hw : Fence.wait f = some { f with wait_closure := none } := by
      simp [Fence.wait, hu]
    have hpres : Framebuffers.fencePresence { s.framebuffers with
        list := setFence s.framebuffers.list i (some { f with wait_closure := none }) } =
        s.framebuffers.fencePresence := by
      unfold Framebuffers.fencePresence
      exact map_fence_isSome_setFence _ _ _
        (by intro fb2 hh; rw [hget] at hh; cases hh; rw [hf]; rfl)
    cases hwo : d.waitOk with
    | true =>
      refine ⟨{ s with framebuffers := { s.framebuffers with
          list := setFence s.framebuffers.list i (some { f with wait_closure := none }) } },
        .noCommandBuffer, ?_, rfl, hpres⟩
      unfold Swapchain.drawAfterFuture Swapchain.drawSubmit
      simp only [hacq, hget, hf, hw, hwo, hcmd]
      simp
    | false =>
      refine ⟨{ s with framebuffers := { s.framebuffers with
          list := setFence s.framebuffers.list i (some { f with wait_closure := none }) } },
        .waitFence, ?_, rfl, hpres⟩
      unfold Swapchain.drawAfterFuture
      simp only [hacq, hget, hf, hw, hwo]
      simp

theorem drawAfterFuture_flushed (s : Swapchain) (d : DrawDriver) (un : Bool)
    (i : Nat) (fb : Framebuffer) (c : Nat)
    (hacq : d.acquire = .acquired i false)
    (hget : s.framebuffers.list[i]? = some fb)
    (hfence : fb.fence = none)
    (hcmd : fb.command_buffer = some c)
    (hfl : d.flush = .flushed) :
    ∃ (s2 : Swapchain), s.drawAfterFuture d un = (s2, .done false, un, true) ∧
      s2.previous_image_index = i := by
  refine ⟨{ swapchain := s.swapchain
            framebuffers := { s.framebuffers with
              list := setFence s.framebuffers.list i
                (some { into_boxed_closure := some (), wait_closure := some () }) }
            previous_image_index := i }, ?_, rfl⟩
  unfold Swapchain.drawAfterFuture Swapchain.drawSubmit
  simp only [hacq, hget, hfence, hcmd, hfl]

theorem draw_eq_block_errored (s : Swapchain) (d : DrawDriver) (s1 : Swapchain)
    (e : VkErr) (un fa : Bool) (h : s.drawBlock d = (s1, .errored e, un, fa)) :
    s.draw d = { state := s1
                 result := .err e
                 usedNowFuture := un
                 flushAttempted := fa
                 recreateCalls := 0 } := by
  unfold Swapchain.draw
  rw [h]

theorem draw_eq_block_done_false (s : Swapchain) (d : DrawDriver) (s1 : Swapchain)
    (un fa : Bool) (h : s.drawBlock d = (s1, .done false, un, fa)) :
    s.draw d = { state := s1
                 result := .ok
                 usedNowFuture := un
                 flushAttempted := fa
                 recreateCalls := 0 } := by
  unfold Swapchain.draw
  rw [h]
  rfl

theorem draw_eq_block_done_true_rec_ok (s : Swapchain) (d : DrawDriver)
    (s1 s2 : Swapchain) (un fa : Bool)
    (h : s.drawBlock d = (s1, .done true, un, fa))
    (hr : s1.recreate d.onRecreate = (s2, none)) :
    s.draw d = { state := s2
                 result := .ok
                 usedNowFuture := un
                 flushAttempted := fa
                 recreateCalls := 1 } := by
  unfold Swapchain.draw
  rw [h]
  simp [hr]

theorem draw_eq_block_done_true_rec_err (s : Swapchain) (d : DrawDriver)
    (s1 s2 : Swapchain) (un fa : Bool) (e : VkErr)
    (h : s.drawBlock d = (s1, .done true, un, fa))
    (hr : s1.recreate d.onRecreate = (s2, some e)) :
    s.draw d = { state := s2
                 result := .err e
                 usedNowFuture := un
                 flushAttempted := fa
                 recreateCalls := 1 } := by
  unfold Swapchain.draw
  rw [h]
  simp [hr]

theorem drawSubmit_length (s : Swapchain) (d : DrawDriver) (i : Nat) (sub : Bool)
    (fbAcq : Framebuffer) (un : Bool) :
    (Swapchain.drawSubmit s d i sub fbAcq un).1.framebuffers.list.length =
      s.framebuffers.list.length := by
  unfold Swapchain.drawSubmit
  repeat' split
  all_goals simp [length_setFence]

theorem drawAfterFuture_length (s : Swapchain) (d : DrawDriver) (un : Bool) :
    (Swapchain.drawAfterFuture s d un).1.framebuffers.list.length =
      s.framebuffers.list.length := by
  unfold Swapchain.drawAfterFuture
  repeat' split
  all_goals simp [drawSubmit_length, length_setFence]

theorem drawBlock_length (s : Swapchain) (d : DrawDriver) :
    (s.drawBlock d).1.framebuffers.list.length = s.framebuffers.list.length := by
  unfold Swapchain.drawBlock
  repeat' split
  all_goals simp [drawAfterFuture_length, length_setFence]

theorem drawSubmit_cmdMap (s : Swapchain) (d : DrawDriver) (i : Nat) (sub : Bool)
    (fbAcq : Framebuffer) (un : Bool) :
    List.map Framebuffer.command_buffer
        (Swapchain.drawSubmit s d i sub fbAcq un).1.framebuffers.list =
      List.map Framebuffer.command_buffer s.framebuffers.list := by
  unfold Swapchain.drawSubmit
  repeat' split
  all_goals simp [map_cmd_setFence]

theorem drawAfterFuture_cmdMap (s : Swapchain) (d : DrawDriver) (un : Bool) :
    List.map Framebuffer.command_buffer
        (Swapchain.drawAfterFuture s d un).1.framebuffers.list =
      List.map Framebuffer.command_buffer s.framebuffers.list := by
  unfold Swapchain.drawAfterFuture
  repeat' split
  all_goals simp [drawSubmit_cmdMap, map_cmd_setFence]

theorem drawBlock_cmdBufs (s : Swapchain) (d : DrawDriver) :
    (s.drawBlock d).1.framebuffers.cmdBufs = s.framebuffers.cmdBufs := by
  unfold Framebuffers.cmdBufs
  unfold Swapchain.drawBlock
  repeat' split
  all_goals simp [drawAfterFuture_cmdMap, map_cmd_setFence]

theorem drawSubmit_cb_builder (s : Swapchain) (d : DrawDriver) (i : Nat) (sub : Bool)
    (fbAcq : Framebuffer) (un : Bool) :
    (Swapchain.drawSubmit s d i sub fbAcq un).1.framebuffers.cb_builder =
      s.framebuffers.cb_builder := by
  unfold Swapchain.drawSubmit
  repeat' split
  all_goals simp

theorem drawAfterFuture_cb_builder (s : Swapchain) (d : DrawDriver) (un : Bool) :
    (Swapchain.drawAfterFuture s d un).1.framebuffers.cb_builder =
      s.framebuffers.cb_builder := by
  unfold Swapchain.drawAfterFuture
  repeat' split
  all_goals simp [drawSubmit_cb_builder]

theorem drawBlock_cb_builder (s : Swapchain) (d : DrawDriver) :
    (s.drawBlock d).1.framebuffers.cb_builder = s.framebuffers.cb_builder := by
  unfold Swapchain.drawBlock
  repeat' split
  all_goals simp [drawAfterFuture_cb_builder]

theorem drawSubmit_cursor (s : Swapchain) (d : DrawDriver) (i : Nat) (sub : Bool)
    (fbAcq : Framebuffer) (un : Bool) (P : Nat → Prop)
    (h1 : P s.previous_image_index) (h2 : P i) :
    P (Swapchain.drawSubmit s d i sub fbAcq un).1.previous_image_index := by
  unfold Swapchain.drawSubmit
  repeat' split
  all_goals first
    | exact h1
    | exact h2

theorem drawAfterFuture_cursor (s : Swapchain) (d : DrawDriver) (un : Bool)
    (P : Nat → Prop) (h1 : P s.previous_image_index)
    (h2 : ∀ j sub, d.acquire = .acquired j sub → P j) :
    P (Swapchain.drawAfterFuture s d un).1.previous_image_index := by
  unfold Swapchain.drawAfterFuture
  repeat' split
  all_goals first
    | exact h1
    | exact drawSubmit_cursor _ _ _ _ _ _ P h1 (h2 _ _ (by assumption))

theorem drawBlock_cursor (s : Swapchain) (d : DrawDriver)
    (P : Nat → Prop) (h1 : P s.previous_image_index)
    (h2 : ∀ j sub, d.acquire = .acquired j sub → P j) :
    P (s.drawBlock d).1.previous_image_index := by
  unfold Swapchain.drawBlock
  repeat' split
  all_goals first
    | exact h1
    | exact drawAfterFuture_cursor _ _ _ P h1 h2

theorem draw_eq_block_panicked (s : Swapchain) (d : DrawDriver) (s1 : Swapchain)
    (un fa : Bool) (h : s.drawBlock d = (s1, .panicked, un, fa)) :
    s.draw d = { state := s1
                 result := .panicked
                 usedNowFuture := un
                 flushAttempted := fa
                 recreateCalls := 0 } := by
  unfold Swapchain.draw
  rw [h]

theorem drawSubmit_bo (s : Swapchain) (d : DrawDriver) (i : Nat) (sub : Bool)
    (fbAcq : Framebuffer) (un : Bool) (P : BlockOut → Prop)
    (he : ∀ e, P (.errored e))
    (hdone : d.flush = .flushed → P (.done sub))
    (hfood : d.flush = .outOfDate → P (.done true)) :
    P (Swapchain.drawSubmit s d i sub fbAcq un).2.1 := by
  unfold Swapchain.drawSubmit
  repeat' split
  all_goals first
    | exact he _
    | exact hdone (by assumption)
    | exact hfood (by assumption)

theorem drawAfterFuture_bo (s : Swapchain) (d : DrawDriver) (un : Bool)
    (P : BlockOut → Prop)
    (hp : P .panicked)
    (he : ∀ e, P (.errored e))
    (hdone : ∀ j sub, d.acquire = .acquired j sub → d.flush = .flushed → P (.done sub))
    (hood : d.acquire = .outOfDate → P (.done true))
    (hfood : d.flush = .outOfDate → P (.done true)) :
    P (Swapchain.drawAfterFuture s d un).2.1 := by
  unfold Swapchain.drawAfterFuture
  repeat' split
  all_goals first
    | exact hp
    | exact he _
    | exact hood (by assumption)
    | exact drawSubmit_bo _ _ _ _ _ _ P he (hdone _ _ (by assumption)) hfood

theorem drawBlock_bo (s : Swapchain) (d : DrawDriver)
    (P : BlockOut → Prop)
    (hp : P .panicked)
    (he : ∀ e, P (.errored e))
    (hdone : ∀ j sub, d.acquire = .acquired j sub → d.flush = .flushed → P (.done sub))
    (hood : d.acquire = .outOfDate → P (.done true))
    (hfood : d.flush = .outOfDate → P (.done true)) :
    P (s.drawBlock d).2.1 := by
  unfold Swapchain.drawBlock
  repeat' split
  all_goals first
    | exact hp
    | exact drawAfterFuture_bo _ _ _ P hp he hdone hood hfood

theorem draw_state_cases (s : Swapchain) (d : DrawDriver) :
    ((s.draw d).state.framebuffers.list.length = s.framebuffers.list.length ∨
      ∃ imgs, d.onRecreate.newImages = .ok imgs ∧
        (s.draw d).state.framebuffers.list.length = imgs.length) ∧
    ((s.draw d).state.previous_image_index = s.previous_image_index ∨
      ∃ j sub, d.acquire = .acquired j sub ∧
        (s.draw d).state.previous_image_index = j) := by
  have hlen := drawBlock_length s d
  have hcur := drawBlock_cursor s d
    (fun n => n = s.previous_image_index ∨
      ∃ j sub, d.acquire = .acquired j sub ∧ n = j)
    (Or.inl rfl) (fun j sub h => Or.inr ⟨j, sub, h, rfl⟩)
  rcases hb : s.drawBlock d with ⟨s1, bo, un, fa⟩
  rw [hb] at hlen hcur
  simp only at hlen hcur
  cases bo with
  | panicked =>
    rw [draw_eq_block_panicked s d s1 un fa hb]
    exact ⟨Or.inl hlen, hcur⟩
  | errored e =>
    rw [draw_eq_block_errored s d s1 e un fa hb]
    exact ⟨Or.inl hlen, hcur⟩
  | done rs =>
    cases rs with
    | false =>
      rw [draw_eq_block_done_false s d s1 un fa hb]
      exact ⟨Or.inl hlen, hcur⟩
    | true =>
      have hrl := recreate_length s1 d.onRecreate
      have hrc := recreate_cursor_unchanged s1 d.onRecreate
      rcases hr : s1.recreate d.onRecreate with ⟨s2, err⟩
      rw [hr] at hrl hrc
      simp only at hrl hrc
      cases err with
      | none =>
        rw [draw_eq_block_done_true_rec_ok s d s1 s2 un fa hb hr]
        refine ⟨?_, ?_⟩
        · rcases hrl with h1 | ⟨imgs, hi, h2⟩
          · exact Or.inl (h1.trans hlen)
          · exact Or.inr ⟨imgs, hi, h2⟩
        · dsimp only
          rw [hrc]
          exact hcur
      | some e =>
        rw [draw_eq_block_done_true_rec_err s d s1 s2 un fa e hb hr]
        refine ⟨?_, ?_⟩
        · rcases hrl with h1 | ⟨imgs, hi, h2⟩
          · exact Or.inl (h1.trans hlen)
          · exact Or.inr ⟨imgs, hi, h2⟩
        · dsimp only
          rw [hrc]
          exact hcur

theorem draw_quiet (s : Swapchain) (d : DrawDriver) (i : Nat)
    (hacq : d.acquire = .acquired i false) (hfl : d.flush = .flushed) :
    (s.draw d).recreateCalls = 0 ∧
    (s.draw d).state.framebuffers.cmdBufs = s.framebuffers.cmdBufs ∧
    (s.draw d).state.framebuffers.cb_builder = s.framebuffers.cb_builder := by
  have hcm := drawBlock_cmdBufs s d
  have hcb := drawBlock_cb_builder s d
  have hbo : (s.drawBlock d).2.1 ≠ .done true := by
    refine drawBlock_bo s d (fun bo => bo ≠ .done true) (by simp) (by simp) ?_ ?_ ?_
    · intro j sub h2 _
      rw [hacq] at h2
      injection h2 with h3 h4
      rw [← h4]
      simp
    · intro h2
      rw [hacq] at h2
      exact absurd h2 (by simp)
    · intro h2
      rw [hfl] at h2
      exact absurd h2 (by simp)
  rcases hb : s.drawBlock d with ⟨s1, bo, un, fa⟩
  rw [hb] at hcm hcb hbo
  simp only at hcm hcb hbo
  cases bo with
  | panicked =>
    rw [draw_eq_block_panicked s d s1 un fa hb]
    exact ⟨rfl, hcm, hcb⟩
  | errored e =>
    rw [draw_eq_block_errored s d s1 e un fa hb]
    exact ⟨rfl, hcm, hcb⟩
  | done rs =>
    cases rs with
    | false =>
      rw [draw_eq_block_done_false s d s1 un fa hb]
      exact ⟨rfl, hcm, hcb⟩
    | true => exact absurd rfl hbo

theorem drawSeq_quiet (s : Swapchain) (ds : List DrawDriver)
    (hds : ∀ d ∈ ds, (∃ i, d.acquire = .acquired i false) ∧ d.flush = .flushed) :
    (s.drawSeq ds).2 = 0 ∧
    (s.drawSeq ds).1.framebuffers.cmdBufs = s.framebuffers.cmdBufs := by
  induction ds generalizing s with
  | nil => exact ⟨rfl, rfl⟩
  | cons d ds ih =>
    obtain ⟨⟨i, hacq⟩, hfl⟩ := hds d (by simp)
    obtain ⟨h1, h2, h3⟩ := draw_quiet s d i hacq hfl
    obtain ⟨h4, h5⟩ := ih (s.draw d).state (fun d2 hm => hds d2 (by simp [hm]))
    unfold Swapchain.drawSeq
    simp only
    exact ⟨by rw [h1, h4], by rw [h5, h2]⟩

theorem new_ok_cursor (env : Env) (cd : CreateDriver) (s : Swapchain)
    (h : Swapchain.new env cd = .ok s) : s.previous_image_index = 0 := by
  unfold Swapchain.new at h
  cases hc : env.caps with
  | error u => simp only [hc] at h; exact absurd h (by simp)
  | ok caps =>
    simp only [hc] at h
    cases hhd : caps.supported_composite_alpha.head? with
    | none => simp only [hhd] at h; exact absurd h (by simp)
    | some a =>
      simp only [hhd] at h
      cases hfmt : env.first_surface_format with
      | error u => simp only [hfmt] at h; exact absurd h (by simp)
      | ok fmt =>
        simp only [hfmt] at h
        cases hch : cd.chain with
        | error u => simp only [hch] at h; exact absurd h (by simp)
        | ok images =>
          simp only [hch] at h
          cases hrp : cd.render_pass_res with
          | error u => simp only [hrp] at h; exact absurd h (by simp)
          | ok u =>
            simp only [hrp, Except.ok.injEq] at h
            subst h
            rfl

/-- C1: when acquisition reports the chain out of date (and the cycle can
run: cursor slot readable, and the scheduled recreation itself succeeds —
its chain recreation returns images and the cached callback, if any,
records them), draw aborts the cycle (the submit/present/flush chain is
never reached), performs exactly one recreate, and returns success. -/
theorem draw_acquire_out_of_date (s : Swapchain) (d : DrawDriver) (imgs : List Nat)
    (hcur : s.previous_image_index < s.framebuffers.list.length)
    (hfence : ∀ f, s.prevFence = some f → f.into_boxed_closure.isSome = true)
    (hacq : d.acquire = .outOfDate)
    (himg : d.onRecreate.newImages = .ok imgs)
    (hcb : ∀ cb, s.framebuffers.cb_builder = some cb →
      ∀ i ∈ imgs, exceptOk (cb i) = true) :
    (s.draw d).result = .ok ∧ (s.draw d).recreateCalls = 1 ∧
    (s.draw d).flushAttempted = false := by
  obtain ⟨s1, un, heq, hc1, hcb1, hfp1, hcm1, hl1, hiff, hpt⟩ :=
    drawBlock_step1 s d hcur hfence
  have hb : s.drawBlock d = (s1, .done true, un, false) := by
    rw [heq, drawAfterFuture_outOfDate s1 d un hacq]
  have hrec : (s1.recreate d.onRecreate).2 = none :=
    recreate_none_of s1 d.onRecreate imgs himg (by rw [hcb1]; exact hcb)
  rcases hr : s1.recreate d.onRecreate with ⟨s2, err⟩
  rw [hr] at hrec
  simp only at hrec
  subst hrec
  rw [draw_eq_block_done_true_rec_ok s d s1 s2 un false hb hr]
  exact ⟨rfl, rfl, rfl⟩

/-- Witness for C1: out-of-date acquisition on the freshly created chain
returns success with exactly one recreation and no submission. -/
theorem draw_acquire_out_of_date_witness :
    (swW.draw dOOD).result = .ok ∧ (swW.draw dOOD).recreateCalls = 1 ∧
    (swW.draw dOOD).flushAttempted = false :=
  draw_acquire_out_of_date swW dOOD [0, 1] (by decide)
    (by intro f h; rw [show swW.prevFence = none from rfl] at h
        exact Option.noConfusion h)
    rfl rfl
    (by intro cb h; rw [show swW.framebuffers.cb_builder = none from rfl] at h
        exact Option.noConfusion h)

/-- C4 amended: the cursor invariant (sentinel 0 or a valid index) is
established by create and preserved by draw when the driver acquires an
in-range index, and by recreate (including the recreate draw triggers)
provided the recreation does not shrink the image count below the previous
one; a recreate that shrinks the chain below the cursor breaks it, because
recreate never resets the cursor. -/
theorem cursor_invariant_preserved :
    (∀ env cd s, Swapchain.new env cd = .ok s → cursorInv s) ∧
    (∀ s rd, cursorInv s →
      (∀ imgs, rd.newImages = .ok imgs →
        s.framebuffers.list.length ≤ imgs.length) →
      cursorInv (s.recreate rd).1) ∧
    (∀ s d, cursorInv s →
      (∀ j sub, d.acquire = .acquired j sub → j < s.framebuffers.list.length) →
      (∀ imgs, d.onRecreate.newImages = .ok imgs →
        s.framebuffers.list.length ≤ imgs.length) →
      cursorInv (s.draw d).state) := by
  refine ⟨?_, ?_, ?_⟩
  · intro env cd s h
    left
    exact new_ok_cursor env cd s h
  · intro s rd hinv hlen
    have hc := recreate_cursor_unchanged s rd
    have hl := recreate_length s rd
    unfold cursorInv at hinv ⊢
    rw [hc]
    rcases hinv with h0 | hlt
    · exact Or.inl h0
    · right
      rcases hl with h1 | ⟨imgs, hi, h2⟩
      · omega
      · have := hlen imgs hi
        omega
  · intro s d hinv hacq hrec
    obtain ⟨hlen, hcur⟩ := draw_state_cases s d
    unfold cursorInv at hinv ⊢
    rcases hcur with h1 | ⟨j, sub, hj, h2⟩
    · rw [h1]
      rcases hinv with h0 | hlt
      · exact Or.inl h0
      · right
        rcases hlen with hl1 | ⟨imgs, hi, hl2⟩
        · omega
        · have := hrec imgs hi
          omega
    · rw [h2]
      right
      have hjlt := hacq j sub hj
      rcases hlen with hl1 | ⟨imgs, hi, hl2⟩
      · omega
      · have := hrec imgs hi
        omega

/-- Witness for the amended C4: recreating the two-target chain onto three
images (count does not shrink) keeps the invariant. -/
theorem cursor_invariant_preserved_witness :
    cursorInv (sC4.recreate rdBig).1 :=
  cursor_invariant_preserved.2.1 sC4 rdBig (Or.inr (by decide))
    (by intro imgs h
        rw [show rdBig.newImages = Except.ok [7, 8, 9] from rfl] at h
        injection h with h2
        subst h2
        decide)

/-- C6: after a successful record_all, any number of draw calls whose
acquisition is in the chain and not suboptimal and whose flush succeeds
performs no recreate and leaves every recorded command sequence unchanged
(draw reads command buffers, it never rewrites them). -/
theorem record_then_draws_stable (s0 : Swapchain) (cb : Callback)
    (fbs1 : Framebuffers) (ds : List DrawDriver)
    (_hrec : s0.framebuffers.build_command_buffer cb = (fbs1, none))
    (hds : ∀ d ∈ ds, (∃ i, d.acquire = .acquired i false) ∧ d.flush = .flushed) :
    (Swapchain.drawSeq { s0 with framebuffers := fbs1 } ds).2 = 0 ∧
    (Swapchain.drawSeq { s0 with framebuffers := fbs1 } ds).1.framebuffers.cmdBufs =
      fbs1.cmdBufs :=
  drawSeq_quiet _ ds hds

/-- Witness for C6: two quiet draw ticks on the recorded chain perform no
recreation and keep the recorded contents. -/
theorem record_then_draws_stable_witness :
    (Swapchain.drawSeq { swW with framebuffers := fbs1W } [dOk, dOk1]).2 = 0 ∧
    (Swapchain.drawSeq { swW with framebuffers := fbs1W } [dOk, dOk1]).1.framebuffers.cmdBufs =
      fbs1W.cmdBufs :=
  record_then_draws_stable swW cbW fbs1W [dOk, dOk1] rfl
    (by intro d hd
        rcases List.mem_cons.mp hd with rfl | hd2
        · exact ⟨⟨0, rfl⟩, rfl⟩
        · rcases List.mem_cons.mp hd2 with rfl | hd3
          · exact ⟨⟨1, rfl⟩, rfl⟩
          · exact absurd hd3 (List.not_mem_nil d))

/-- C7: on a draw whose cursor slot holds no Completion Token (the state
right after create), draw synthesizes an immediately ready now-future
instead of panicking, and when the acquired target is recorded and the
flush succeeds the call returns success with the cursor advanced to the
acquired index. -/
theorem first_draw_synthesizes_now (s : Swapchain) (d : DrawDriver) (i : Nat)
    (fbAcq : Framebuffer) (c : Nat)
    (hcur : s.previous_image_index < s.framebuffers.list.length)
    (hprev : s.prevFence = none)
    (hacq : d.acquire = .acquired i false)
    (hget : s.framebuffers.list[i]? = some fbAcq)
    (hfacq : fbAcq.fence = none)
    (hcmd : fbAcq.command_buffer = some c)
    (hfl : d.flush = .flushed) :
    (s.draw d).usedNowFuture = true ∧ (s.draw d).result = .ok ∧
    (s.draw d).state.previous_image_index = i := by
  obtain ⟨s1, un, heq, hc1, hcb1, hfp1, hcm1, hl1, hiff, hpt⟩ :=
    drawBlock_step1 s d hcur
      (by intro f h; rw [hprev] at h; exact Option.noConfusion h)
  have hun : un = true := hiff.mpr hprev
  subst hun
  obtain ⟨fb1, hget1, him1, hcm1b, hw1⟩ := hpt i fbAcq hget
  have hf1 : fb1.fence = none := by
    cases hff : fb1.fence with
    | none => rfl
    | some f2 =>
      rw [hff, hfacq] at hw1
      simp at hw1
  obtain ⟨s2, heq2, hc2⟩ :=
    drawAfterFuture_flushed s1 d true i fb1 c hacq hget1 hf1
      (hcm1b.trans hcmd) hfl
  have hb : s.drawBlock d = (s2, .done false, true, true) := by
    rw [heq, heq2]
  rw [draw_eq_block_done_false s d s2 true true hb]
  exact ⟨rfl, rfl, hc2⟩

/-- Witness for C7: the first draw on the freshly recorded chain (cursor 0,
no tokens anywhere) uses the now-future, succeeds, and leaves the cursor at
the acquired index 0. -/
theorem first_draw_synthesizes_now_witness :
    (s1W.draw dOk).usedNowFuture = true ∧ (s1W.draw dOk).result = .ok ∧
    (s1W.draw dOk).state.previous_image_index = 0 :=
  first_draw_synthesizes_now s1W dOk 0
    { image := 0, command_buffer := some 7, fence := none } 7
    (by decide) rfl rfl rfl rfl rfl rfl

/-- C10: when the acquired target has no recorded command sequence, draw
returns an error (never panics, given the fences present still hold their
closures), reaches no submission, stores no new Completion Token (the
per-target token presence is unchanged), does not advance the cursor, and
performs no recreate. -/
theorem draw_missing_command_buffer (s : Swapchain) (d : DrawDriver) (i : Nat)
    (sub : Bool) (fbAcq : Framebuffer)
    (hcur : s.previous_image_index < s.framebuffers.list.length)
    (hfence : ∀ f, s.prevFence = some f → f.into_boxed_closure.isSome = true)
    (hacq : d.acquire = .acquired i sub)
    (hget : s.framebuffers.list[i]? = some fbAcq)
    (hwf : ∀ f, fbAcq.fence = some f → f.wait_closure.isSome = true)
    (hcmd : fbAcq.command_buffer = none) :
    (∃ e, (s.draw d).result = .err e) ∧
    (s.draw d).flushAttempted = false ∧
    (s.draw d).recreateCalls = 0 ∧
    (s.draw d).state.previous_image_index = s.previous_image_index ∧
    (s.draw d).state.framebuffers.fencePresence = s.framebuffers.fencePresence := by
  obtain ⟨s1, un, heq, hc1, hcb1, hfp1, hcm1, hl1, hiff, hpt⟩ :=
    drawBlock_step1 s d hcur hfence
  obtain ⟨fb1, hget1, him1, hcm1b, hw1⟩ := hpt i fbAcq hget
  have hwf1 : ∀ f, fb1.fence = some f → f.wait_closure.isSome = true := by
    intro f hf
    rw [hf] at hw1
    cases hff : fbAcq.fence with
    | none =>
      rw [hff] at hw1
      simp at hw1
    | some f0 =>
      rw [hff] at hw1
      simp at hw1
      rw [hw1]
      exact hwf f0 hff
  obtain ⟨s2, e, heq2, hc2, hfp2⟩ :=
    drawAfterFuture_noCmd s1 d un i sub fb1 hacq hget1 hwf1 (hcm1b.trans hcmd)
  have hb : s.drawBlock d = (s2, .errored e, un, false) := by
    rw [heq, heq2]
  rw [draw_eq_block_errored s d s2 e un false hb]
  exact ⟨⟨e, rfl⟩, rfl, rfl, hc2.trans hc1, hfp2.trans hfp1⟩

/-- Witness for C10: drawing the never-recorded chain with the driver
acquiring image 1 errors without submitting, recreating, moving the cursor,
or storing a token. -/
theorem draw_missing_command_buffer_witness :
    (∃ e, (swW.draw dOk1).result = .err e) ∧
    (swW.draw dOk1).flushAttempted = false ∧
    (swW.draw dOk1).recreateCalls = 0 ∧
    (swW.draw dOk1).state.previous_image_index = swW.previous_image_index ∧
    (swW.draw dOk1).state.framebuffers.fencePresence = swW.framebuffers.fencePresence :=
  draw_missing_command_buffer swW dOk1 1 false (Framebuffer.new 1) (by decide)
    (by intro f h; rw [show swW.prevFence = none from rfl] at h
        exact Option.noConfusion h)
    rfl rfl
    (by intro f h; rw [show (Framebuffer.new 1).fence = none from rfl] at h
        exact Option.noConfusion h)
    rfl

end GL3D
